import Mathlib

/-!
Verification of the Game of Life engine in `game.py`.

The engine works on 2-D numpy arrays of shape `(width, height)`.  We embed
such an array as a structure holding its two dimensions, its dtype
(numpy distinguishes boolean arrays from integer arrays; we record only
whether the dtype is boolean, since those are the only dtypes the program
produces) and the cell contents as an integer-valued function of the two
indices.  Cells of a boolean array are stored as the integers 0 and 1,
exactly as numpy treats booleans in arithmetic.

The numpy operations used by the engine are embedded one by one:
`np.roll` along axis 0 and axis 1, elementwise comparison with a scalar
(`== 3`, `== 2`), elementwise `&` and `|` (bitwise on integers; numpy
promotes a boolean operand of a mixed `int op bool` expression to integer,
so the result dtype is boolean exactly when both operands are boolean),
and the accumulating addition performed by Python's builtin `sum`, whose
start value is the Python integer 0, so the accumulated array always has
integer dtype.
-/

/-- Embedding of a numpy 2-D array of shape `(width, height)`: dimensions,
whether the dtype is boolean, and the integer value stored at each pair of
indices (a boolean array stores 0 and 1). -/
structure NPArray where
  width : Nat
  height : Nat
  isBool : Bool
  cell : Nat → Nat → Int

/-- Embedding of `np.roll(A, i, 0)`: rotate along axis 0, so the entry at
row `x` comes from row `(x - i) mod width`.  Shape and dtype are kept. -/
def np_roll0 (A : NPArray) (i : Int) : NPArray :=
  { width := A.width, height := A.height, isBool := A.isBool,
    cell := fun x y => A.cell (((x : Int) - i).emod A.width).toNat y }

/-- Embedding of `np.roll(A, j, 1)`: rotate along axis 1, so the entry at
column `y` comes from column `(y - j) mod height`. -/
def np_roll1 (A : NPArray) (j : Int) : NPArray :=
  { width := A.width, height := A.height, isBool := A.isBool,
    cell := fun x y => A.cell x (((y : Int) - j).emod A.height).toNat }

/-- Embedding of an elementwise comparison `A == n` with a scalar: the
result is a boolean array whose cells are 1 where the comparison holds. -/
def np_eq_scalar (A : NPArray) (n : Int) : NPArray :=
  { width := A.width, height := A.height, isBool := true,
    cell := fun x y => if A.cell x y = n then 1 else 0 }

/-- Embedding of elementwise `A & B`: bitwise and on the stored integers
(for boolean operands, stored as 0/1, this is the logical and).  The numpy
result dtype is boolean exactly when both operands are boolean. -/
def np_and (A B : NPArray) : NPArray :=
  { width := A.width, height := A.height, isBool := A.isBool && B.isBool,
    cell := fun x y => Int.land (A.cell x y) (B.cell x y) }

/-- Embedding of elementwise `A | B`: bitwise or on the stored integers.
The numpy result dtype is boolean exactly when both operands are boolean. -/
def np_or (A B : NPArray) : NPArray :=
  { width := A.width, height := A.height, isBool := A.isBool && B.isBool,
    cell := fun x y => Int.lor (A.cell x y) (B.cell x y) }

/-- Embedding of the elementwise addition performed inside Python's
builtin `sum`: the accumulator starts from the Python integer 0, so every
intermediate array already has integer dtype and the addition is genuine
integer addition (never the boolean-array `+`). -/
def np_add (A B : NPArray) : NPArray :=
  { width := A.width, height := A.height, isBool := false,
    cell := fun x y => A.cell x y + B.cell x y }

/-- The integer start value 0 of Python's builtin `sum`, broadcast by the
first addition to the shape of the grid. -/
def zerosLike (A : NPArray) : NPArray :=
  { width := A.width, height := A.height, isBool := false,
    cell := fun _ _ => 0 }

/-- The eight `(i, j)` offset pairs of the generator
`for i in (-1, 0, 1) for j in (-1, 0, 1) if (i != 0 or j != 0)`,
in generator order. -/
def offsets : List (Int × Int) :=
  [(-1, -1), (-1, 0), (-1, 1), (0, -1), (0, 1), (1, -1), (1, 0), (1, 1)]

/-- One pass of the neighbour-count summation
`sum(np.roll(np.roll(game_state, i, 0), j, 1) for i ... for j ...)`:
for each offset, allocate the inner roll, the outer roll, and the new
accumulator array, returning both the list of arrays allocated (in
program order, for the heap model below) and the final accumulator. -/
def roll_allocs (s : NPArray) (acc : NPArray) :
    List (Int × Int) → List NPArray × NPArray
  | [] => ([], acc)
  | p :: rest =>
      let inner := np_roll0 s p.1
      let outer := np_roll1 inner p.2
      let acc2 := np_add acc outer
      let r := roll_allocs s acc2 rest
      (inner :: outer :: acc2 :: r.1, r.2)

/-- The array bound to `neighbors_count` in `update_game_state`: the sum,
over the eight non-zero offsets, of the doubly rolled copies of the grid. -/
def neighbors_count (game_state : NPArray) : NPArray :=
  (roll_allocs game_state (zerosLike game_state) offsets).2

/-- Embedding of `update_game_state`: count neighbours, then apply
`(neighbors_count == 3) | (game_state & (neighbors_count == 2))`. -/
def update_game_state (game_state : NPArray) : NPArray :=
  np_or (np_eq_scalar (neighbors_count game_state) 3)
    (np_and game_state (np_eq_scalar (neighbors_count game_state) 2))

/-- Embedding of the generator `generate_frames`: it first yields the
grid it was given, and after each yield replaces it with
`update_game_state` of it, so the n-th yielded frame is the n-th iterate
of `update_game_state` on the initial grid. -/
def generate_frames (game_state : NPArray) : Nat → NPArray
  | 0 => game_state
  | n + 1 => update_game_state (generate_frames game_state n)

/-- Embedding of `initialize_game`, which calls
`np.random.choice([0, 1], size=(width, height), p=[0.8, 0.2])`.
The random draws are abstracted as a given function `rand` telling, for
each pair of indices, whether that cell's draw came up alive.  numpy
raises `ValueError` when a size entry is negative, and otherwise returns
an integer-dtyped array (the choices are the Python integers 0 and 1) of
exactly the requested shape; there is no other validation in the code. -/
def initialize_game (width height : Int) (rand : Nat → Nat → Bool) :
    Except String NPArray :=
  if width < 0 ∨ height < 0 then
    Except.error "ValueError: negative dimensions are not allowed"
  else
    Except.ok
      { width := width.toNat, height := height.toNat, isBool := false,
        cell := fun x y => if rand x y then 1 else 0 }

/-- All in-range cells hold 0 or 1 (the values a boolean or a 0/1 integer
grid can hold). -/
def Valid01 (A : NPArray) : Prop :=
  ∀ x, x < A.width → ∀ y, y < A.height → A.cell x y = 0 ∨ A.cell x y = 1

/-- A valid Grid State: positive dimensions and 0/1-valued cells. -/
def Valid (A : NPArray) : Prop :=
  0 < A.width ∧ 0 < A.height ∧ Valid01 A

instance (A : NPArray) : Decidable (Valid01 A) := by
  unfold Valid01; infer_instance

instance (A : NPArray) : Decidable (Valid A) := by
  unfold Valid; infer_instance

/-- Modelled from the spec: the direct modular-offset enumeration of live
neighbours — the number of the 8 toroidally wrapped coordinates
`(x+dx mod width, y+dy mod height)`, `(dx,dy) ∈ {-1,0,1}² \ {(0,0)}`,
whose cell is alive. -/
def count_neighbors_spec (A : NPArray) (x y : Nat) : Int :=
  (offsets.map fun p =>
    if A.cell (((x : Int) + p.1).emod A.width).toNat
        (((y : Int) + p.2).emod A.height).toNat = 1 then (1 : Int) else 0).sum

/-- The in-range cell contents of a grid as a list of rows, used to state
exact equality of the observable part of two grids. -/
def cellsList (A : NPArray) : List (List Int) :=
  (List.range A.width).map fun x =>
    (List.range A.height).map fun y => A.cell x y

/-- Recognizer for a successful construction. -/
def okGrid : Except String NPArray → Bool
  | Except.ok _ => true
  | Except.error _ => false

/-- A 5 by 5 grid whose only live cell sits at the corner `(0, 0)`. -/
def cornerGrid : NPArray :=
  { width := 5, height := 5, isBool := false,
    cell := fun x y => if x = 0 ∧ y = 0 then 1 else 0 }

/-- The degenerate 1 by 1 grid whose single cell is alive. -/
def oneAlive : NPArray :=
  { width := 1, height := 1, isBool := false, cell := fun _ _ => 1 }

/-- A 10 by 10 grid holding a horizontal blinker at
`(4,5), (5,5), (6,5)`. -/
def blinkerH : NPArray :=
  { width := 10, height := 10, isBool := false,
    cell := fun x y => if (x = 4 ∨ x = 5 ∨ x = 6) ∧ y = 5 then 1 else 0 }

/-- The vertical orientation of the blinker: live exactly at
`(5,4), (5,5), (5,6)`. -/
def blinkerV : NPArray :=
  { width := 10, height := 10, isBool := false,
    cell := fun x y => if x = 5 ∧ (y = 4 ∨ y = 5 ∨ y = 6) then 1 else 0 }

/-- The integer-dtyped 1 by 1 grid that `initialize_game 1 1` returns when
the single random draw comes up alive. -/
def initIntGrid : NPArray :=
  { width := 1, height := 1, isBool := false, cell := fun _ _ => 1 }

/-- Default array returned by out-of-range heap lookups. -/
def defaultArray : NPArray :=
  { width := 0, height := 0, isBool := false, cell := fun _ _ => 0 }

/-- A heap of allocated numpy arrays; references are list indices.  Used
to make observable mutation statable: a numpy operation that mutated an
existing array would change an entry of the heap, while all operations
used by the engine only append freshly allocated arrays. -/
abbrev Heap := List NPArray

/-- Look up an array reference in the heap. -/
def getA (h : Heap) (r : Nat) : NPArray :=
  h.getD r defaultArray

/-- The arrays allocated, in program order, by one call of
`update_game_state`: the arrays of the neighbour-count summation, then
the two comparison arrays, the conjunction, and the final disjunction.
Every numpy operation in the body allocates a fresh array and none writes
into an existing one; the assignment on line 49 of the source rebinds the
local name instead of storing into the input array. -/
def update_allocs (s : NPArray) : List NPArray :=
  (roll_allocs s (zerosLike s) offsets).1 ++
    [np_eq_scalar (neighbors_count s) 3,
     np_eq_scalar (neighbors_count s) 2,
     np_and s (np_eq_scalar (neighbors_count s) 2),
     np_or (np_eq_scalar (neighbors_count s) 3)
       (np_and s (np_eq_scalar (neighbors_count s) 2))]

/-- Heap-level embedding of a call `update_game_state(game_state)`: the
heap is extended with the freshly allocated arrays, and a reference to
the last of them — the returned array — is handed back. -/
def update_game_state_heap (h : Heap) (r : Nat) : Heap × Nat :=
  (h ++ update_allocs (getA h r), (h ++ update_allocs (getA h r)).length - 1)

/-- A toroidally wrapped index is always in range when the modulus is a
positive dimension. -/
lemma emod_toNat_lt (a : Int) (w : Nat) (hw : 0 < w) : (a.emod w).toNat < w := by
  have h0 : 0 ≤ a.emod w := Int.emod_nonneg a (by exact_mod_cast hw.ne')
  have h1 : a.emod w < (w : Int) := Int.emod_lt_of_pos a (by exact_mod_cast hw)
  have h2 : ((a.emod w).toNat : Int) = a.emod w := Int.toNat_of_nonneg h0
  omega

/-- A 0/1 value equals its own aliveness indicator. -/
lemma indicator_eq (v : Int) (hv : v = 0 ∨ v = 1) :
    (if v = 1 then (1 : Int) else 0) = v := by
  rcases hv with rfl | rfl <;> simp

/-- Case analysis of the cell-level rule expression
`(count == 3) | (value & (count == 2))` for a 0/1 cell value: it is 1
exactly under Conway's rule, and it is itself 0 or 1. -/
lemma rule_cell_cases (v c : Int) (hv : v = 0 ∨ v = 1) :
    (Int.lor (if c = 3 then (1 : Int) else 0)
        (Int.land v (if c = 2 then (1 : Int) else 0)) = 1 ↔
      (c = 3 ∨ (v = 1 ∧ c = 2))) ∧
    (Int.lor (if c = 3 then (1 : Int) else 0)
        (Int.land v (if c = 2 then (1 : Int) else 0)) = 0 ∨
      Int.lor (if c = 3 then (1 : Int) else 0)
        (Int.land v (if c = 2 then (1 : Int) else 0)) = 1) := by
  by_cases h3 : c = 3
  · rcases hv with rfl | rfl <;> rw [h3] <;> exact ⟨by decide, by decide⟩
  · by_cases h2 : c = 2
    · rcases hv with rfl | rfl <;> rw [h2] <;> exact ⟨by decide, by decide⟩
    · rw [if_neg h3, if_neg h2]
      refine ⟨⟨fun hL => ?_, ?_⟩, ?_⟩
      · rcases hv with rfl | rfl <;> exact absurd hL (by decide)
      · rintro (hc | ⟨-, hc⟩)
        · exact absurd hc h3
        · exact absurd hc h2
      · rcases hv with rfl | rfl <;> left <;> decide

/-- The cell of `update_game_state` at any coordinates, unfolded. -/
lemma update_cell (S : NPArray) (x y : Nat) :
    (update_game_state S).cell x y =
      Int.lor (if (neighbors_count S).cell x y = 3 then (1 : Int) else 0)
        (Int.land (S.cell x y)
          (if (neighbors_count S).cell x y = 2 then (1 : Int) else 0)) := rfl

/-- The accumulator returned by the summation pass holds, at each pair of
indices, the start value plus the sum of the rolled copies there. -/
lemma roll_allocs_cell (s : NPArray) (l : List (Int × Int)) :
    ∀ (acc : NPArray) (x y : Nat),
      ((roll_allocs s acc l).2).cell x y =
        acc.cell x y +
          (l.map fun p => (np_roll1 (np_roll0 s p.1) p.2).cell x y).sum := by
  induction l with
  | nil => intro acc x y; simp [roll_allocs]
  | cons p rest ih =>
      intro acc x y
      simp only [roll_allocs, List.map_cons, List.sum_cons]
      rw [ih]
      simp only [np_add]
      ring

/-- The `neighbors_count` array holds, at each pair of indices, the sum
over the eight offsets of the corresponding rolled copy of the grid. -/
lemma neighbors_count_cell (s : NPArray) (x y : Nat) :
    (neighbors_count s).cell x y =
      (offsets.map fun p => (np_roll1 (np_roll0 s p.1) p.2).cell x y).sum := by
  rw [neighbors_count, roll_allocs_cell]
  simp [zerosLike]

/-- The summation pass keeps the width of its accumulator. -/
lemma roll_allocs_snd_width (s : NPArray) (l : List (Int × Int)) :
    ∀ acc : NPArray, ((roll_allocs s acc l).2).width = acc.width := by
  induction l with
  | nil => intro acc; rfl
  | cons p rest ih => intro acc; simp only [roll_allocs]; exact ih _

/-- The summation pass keeps the height of its accumulator. -/
lemma roll_allocs_snd_height (s : NPArray) (l : List (Int × Int)) :
    ∀ acc : NPArray, ((roll_allocs s acc l).2).height = acc.height := by
  induction l with
  | nil => intro acc; rfl
  | cons p rest ih => intro acc; simp only [roll_allocs]; exact ih _

/-- Neighbour counting keeps the grid's width. -/
lemma neighbors_count_width (s : NPArray) :
    (neighbors_count s).width = s.width := by
  rw [neighbors_count, roll_allocs_snd_width]; rfl

/-- Neighbour counting keeps the grid's height. -/
lemma neighbors_count_height (s : NPArray) :
    (neighbors_count s).height = s.height := by
  rw [neighbors_count, roll_allocs_snd_height]; rfl

/-- The step keeps the grid's width. -/
lemma update_game_state_width (S : NPArray) :
    (update_game_state S).width = S.width := by
  show (np_eq_scalar (neighbors_count S) 3).width = S.width
  rw [np_eq_scalar]
  exact neighbors_count_width S

/-- The step keeps the grid's height. -/
lemma update_game_state_height (S : NPArray) :
    (update_game_state S).height = S.height := by
  show (np_eq_scalar (neighbors_count S) 3).height = S.height
  rw [np_eq_scalar]
  exact neighbors_count_height S

/-- C1: for every valid Grid State `S` and coordinates `(x, y)`, the cell
of `update_game_state S` at `(x, y)` is alive exactly when the neighbour
count there is 3, or the cell of `S` there is alive and the neighbour
count is 2 — the boolean identity of line 49, with no other cases. -/
theorem rule_identity (S : NPArray) (hS : Valid S) (x y : Nat)
    (hx : x < S.width) (hy : y < S.height) :
    ((update_game_state S).cell x y = 1 ↔
      ((neighbors_count S).cell x y = 3 ∨
        (S.cell x y = 1 ∧ (neighbors_count S).cell x y = 2))) := by
  rw [update_cell]
  exact (rule_cell_cases _ _ (hS.2.2 x hx y hy)).1

/-- Witness for C1 at the 5 by 5 corner grid and coordinates `(1, 1)`. -/
theorem rule_identity_w :
    Valid cornerGrid ∧
      ((update_game_state cornerGrid).cell 1 1 = 1 ↔
        ((neighbors_count cornerGrid).cell 1 1 = 3 ∨
          (cornerGrid.cell 1 1 = 1 ∧
            (neighbors_count cornerGrid).cell 1 1 = 2))) :=
  ⟨by decide, rule_identity cornerGrid (by decide) 1 1 (by decide) (by decide)⟩

/-- C3: the generator yields the initial grid first, then its successive
`update_game_state` iterates: frame 1 is `step` of frame 0, frame 2 is
`step` of frame 1, and in general frame `n + 1` is `step` of frame `n`. -/
theorem generate_frames_sequence (S : NPArray) (n : Nat) :
    generate_frames S 0 = S ∧
    generate_frames S 1 = update_game_state S ∧
    generate_frames S 2 = update_game_state (update_game_state S) ∧
    generate_frames S (n + 1) = update_game_state (generate_frames S n) :=
  ⟨rfl, rfl, rfl, rfl⟩

/-- C6: `update_game_state` returns a grid with the same width and height
as its input — the shape is preserved by every generation transition. -/
theorem step_shape_preserved (S : NPArray) :
    (update_game_state S).width = S.width ∧
      (update_game_state S).height = S.height :=
  ⟨update_game_state_width S, update_game_state_height S⟩

/-- C8: on the 5 by 5 grid whose only live cell is at the corner
`(0, 0)`, the neighbour count registers that cell as a live neighbour of
the cells at `(4, 4)`, `(4, 0)` and `(0, 4)`: lookups wrap across both
axes. -/
theorem toroidal_wrap_corner :
    cornerGrid.cell 0 0 = 1 ∧
    (neighbors_count cornerGrid).cell 4 4 = 1 ∧
    (neighbors_count cornerGrid).cell 4 0 = 1 ∧
    (neighbors_count cornerGrid).cell 0 4 = 1 := by
  decide

/-- C9: one `update_game_state` turns the horizontal blinker into exactly
the vertical one, and a second application restores exactly the original
three live cells — period 2. -/
theorem blinker_period_two :
    cellsList (update_game_state blinkerH) = cellsList blinkerV ∧
    cellsList (update_game_state (update_game_state blinkerH)) =
      cellsList blinkerH := by
  decide

/-- C10: on the 1 by 1 grid whose single cell is alive, the roll-based
count registers the cell as its own wrapped neighbour through all eight
offsets, giving a count of 8, and one `update_game_state` kills it; the
step function is defined at this degenerate size and keeps the shape. -/
theorem one_by_one_degenerate :
    (neighbors_count oneAlive).cell 0 0 = 8 ∧
    (update_game_state oneAlive).cell 0 0 = 0 ∧
    (update_game_state oneAlive).width = 1 ∧
    (update_game_state oneAlive).height = 1 := by
  decide

/-- Counterexample to C4: `initialize_game` returns an integer-dtyped
grid (its live cells hold the integer 1, not a boolean), and stepping an
integer-dtyped grid again yields an integer-dtyped grid, so the engine's
own pipeline never stores the exact boolean values the claim demands. -/
theorem state_values_boolean_cex :
    initialize_game 1 1 (fun _ _ => true) = Except.ok initIntGrid ∧
    initIntGrid.isBool = false ∧
    initIntGrid.cell 0 0 = 1 ∧
    (update_game_state initIntGrid).isBool = false :=
  ⟨rfl, rfl, rfl, rfl⟩

/-- C4 as amended: every grid produced by the engine holds only the cell
values 0 and 1 — semantically alive or dead, with no counting residue —
but stored with integer dtype along the pipeline seeded by
`initialize_game`: every grid `initialize_game` returns is 0/1-valued,
and `update_game_state` sends 0/1-valued grids to 0/1-valued grids. -/
theorem state_values_zero_one :
    (∀ (w h : Int) (r : Nat → Nat → Bool) (g : NPArray),
        initialize_game w h r = Except.ok g → Valid01 g) ∧
      ∀ S : NPArray, Valid01 S → Valid01 (update_game_state S) := by
  constructor
  · intro w h r g hg
    rw [initialize_game] at hg
    split at hg
    · exact absurd hg (by simp)
    · cases hg
      intro x hx y hy
      cases r x y <;> simp
  · intro S hS x hx y hy
    rw [update_game_state_width] at hx
    rw [update_game_state_height] at hy
    rw [update_cell]
    exact (rule_cell_cases _ _ (hS x hx y hy)).2

/-- Witness for C4 as amended, at a grid returned by `initialize_game`
and at the stepped corner grid. -/
theorem state_values_zero_one_w :
    Valid01 initIntGrid ∧ Valid01 (update_game_state cornerGrid) :=
  ⟨state_values_zero_one.1 1 1 (fun _ _ => true) initIntGrid rfl,
    state_values_zero_one.2 cornerGrid (by decide)⟩

/-- Counterexample to C5: called with `width = 0` — a width that is not
positive — `initialize_game` does not report a construction error; it
returns a grid (of shape `(0, 1)`). -/
theorem initialize_validation_cex :
    (0 : Int) ≤ 0 ∧ okGrid (initialize_game 0 1 fun _ _ => false) = true :=
  ⟨le_refl 0, rfl⟩

/-- C5 as amended: `initialize_game` validates nothing itself; the only
construction error is the `ValueError` numpy raises for a negative
dimension.  A call with `width < 0` or `height < 0` reports that error
and returns no grid; any other call — including `width = 0` or
`height = 0` — returns a grid of exactly the requested dimensions, with
cells drawn by the random source.  The alive probability is not an input:
it is fixed at 0.2 inside the function, so it can never be out of
range. -/
theorem initialize_behavior (w h : Int) (r : Nat → Nat → Bool) :
    ((w < 0 ∨ h < 0) →
        initialize_game w h r =
          Except.error "ValueError: negative dimensions are not allowed") ∧
      (0 ≤ w → 0 ≤ h →
        initialize_game w h r =
          Except.ok
            { width := w.toNat, height := h.toNat, isBool := false,
              cell := fun x y => if r x y then 1 else 0 }) := by
  constructor
  · intro hneg
    rw [initialize_game, if_pos hneg]
  · intro hw hh
    rw [initialize_game, if_neg (by omega)]

/-- Witness for C5 as amended: a negative width errors, and a 2 by 3
request returns the 2 by 3 grid drawn from the random source. -/
theorem initialize_behavior_w :
    initialize_game (-1) 1 (fun _ _ => false) =
        Except.error "ValueError: negative dimensions are not allowed" ∧
      initialize_game 2 3 (fun _ _ => false) =
        Except.ok
          { width := 2, height := 3, isBool := false,
            cell := fun _ _ => if false then 1 else 0 } :=
  ⟨(initialize_behavior (-1) 1 (fun _ _ => false)).1 (Or.inl (by decide)),
    (initialize_behavior 2 3 (fun _ _ => false)).2 (by decide) (by decide)⟩

/-- C2: on a valid Grid State, the eight-pass shifted-and-accumulated
roll summation agrees, at every in-range coordinate, with the direct
modular-offset enumeration of live wrapped neighbours, and the count lies
between 0 and 8. -/
theorem neighbors_count_correct (S : NPArray) (hS : Valid S) (x y : Nat)
    (_hx : x < S.width) (_hy : y < S.height) :
    (neighbors_count S).cell x y = count_neighbors_spec S x y ∧
      0 ≤ (neighbors_count S).cell x y ∧ (neighbors_count S).cell x y ≤ 8 := by
  obtain ⟨hw, hh, h01⟩ := hS
  have aPP := h01 _ (emod_toNat_lt ((x : Int) + 1) _ hw) _
    (emod_toNat_lt ((y : Int) + 1) _ hh)
  have aP0 := h01 _ (emod_toNat_lt ((x : Int) + 1) _ hw) _
    (emod_toNat_lt (y : Int) _ hh)
  have aPM := h01 _ (emod_toNat_lt ((x : Int) + 1) _ hw) _
    (emod_toNat_lt ((y : Int) - 1) _ hh)
  have a0P := h01 _ (emod_toNat_lt (x : Int) _ hw) _
    (emod_toNat_lt ((y : Int) + 1) _ hh)
  have a0M := h01 _ (emod_toNat_lt (x : Int) _ hw) _
    (emod_toNat_lt ((y : Int) - 1) _ hh)
  have aMP := h01 _ (emod_toNat_lt ((x : Int) - 1) _ hw) _
    (emod_toNat_lt ((y : Int) + 1) _ hh)
  have aM0 := h01 _ (emod_toNat_lt ((x : Int) - 1) _ hw) _
    (emod_toNat_lt (y : Int) _ hh)
  have aMM := h01 _ (emod_toNat_lt ((x : Int) - 1) _ hw) _
    (emod_toNat_lt ((y : Int) - 1) _ hh)
  refine ⟨?_, ?_, ?_⟩
  · rw [neighbors_count_cell, count_neighbors_spec]
    simp only [offsets, List.map_cons, List.map_nil, List.sum_cons,
      List.sum_nil, np_roll0, np_roll1, sub_neg_eq_add, sub_zero, add_zero,
      ← sub_eq_add_neg]
    rw [indicator_eq _ aMM, indicator_eq _ aM0, indicator_eq _ aMP,
      indicator_eq _ a0M, indicator_eq _ a0P, indicator_eq _ aPM,
      indicator_eq _ aP0, indicator_eq _ aPP]
    ring
  · rw [neighbors_count_cell]
    simp only [offsets, List.map_cons, List.map_nil, List.sum_cons,
      List.sum_nil, np_roll0, np_roll1, sub_neg_eq_add, sub_zero]
    omega
  · rw [neighbors_count_cell]
    simp only [offsets, List.map_cons, List.map_nil, List.sum_cons,
      List.sum_nil, np_roll0, np_roll1, sub_neg_eq_add, sub_zero]
    omega

/-- Witness for C2 at the 5 by 5 corner grid and coordinates `(0, 1)`. -/
theorem neighbors_count_correct_w :
    Valid cornerGrid ∧
      ((neighbors_count cornerGrid).cell 0 1 =
          count_neighbors_spec cornerGrid 0 1 ∧
        0 ≤ (neighbors_count cornerGrid).cell 0 1 ∧
        (neighbors_count cornerGrid).cell 0 1 ≤ 8) :=
  ⟨by decide,
    neighbors_count_correct cornerGrid (by decide) 0 1 (by decide) (by decide)⟩

/-- C7: a call of `update_game_state` only appends freshly allocated
arrays to the heap: every array that existed before the call — in
particular the input grid — is unchanged afterwards, so the caller can
still use the pre-step state; and the array the call returns holds
exactly the value of the pure step function on the input's value. -/
theorem step_no_mutation (h : Heap) (r : Nat) :
    (∀ k, k < h.length →
        getA (update_game_state_heap h r).1 k = getA h k) ∧
      getA (update_game_state_heap h r).1 (update_game_state_heap h r).2 =
        update_game_state (getA h r) := by
  constructor
  · intro k hk
    show (h ++ update_allocs (getA h r)).getD k defaultArray =
      h.getD k defaultArray
    exact List.getD_append h _ defaultArray k hk
  · show (h ++ update_allocs (getA h r)).getD
        ((h ++ update_allocs (getA h r)).length - 1) defaultArray =
      update_game_state (getA h r)
    have hR : ((roll_allocs (getA h r) (zerosLike (getA h r)) offsets).1).length
        = 24 := by
      simp [offsets, roll_allocs]
    have hL : (update_allocs (getA h r)).length = 28 := by
      rw [update_allocs]
      simp [hR]
    rw [List.length_append, hL,
      show h.length + 28 - 1 = h.length + 27 from rfl,
      List.getD_append_right h _ defaultArray _ (by omega),
      show h.length + 27 - h.length = 27 from by omega,
      update_allocs,
      List.getD_append_right _ _ defaultArray _ (by rw [hR]; omega),
      hR]
    rfl

/-- Witness for C7 on the one-entry heap holding the corner grid. -/
theorem step_no_mutation_w :
    getA (update_game_state_heap [cornerGrid] 0).1 0 = getA [cornerGrid] 0 ∧
      getA (update_game_state_heap [cornerGrid] 0).1
          (update_game_state_heap [cornerGrid] 0).2 =
        update_game_state (getA [cornerGrid] 0) :=
  ⟨(step_no_mutation [cornerGrid] 0).1 0 (by decide),
    (step_no_mutation [cornerGrid] 0).2⟩
